import Mathlib

/-!
Shallow embedding of `src/traning/hantei.js`: a bounded 2D world of moving
axis-aligned rectangles with boundary reflection and a brute-force pairwise
collision sweep.  JS numbers are modelled by `ℚ`; the DOM / canvas /
`requestAnimationFrame` glue is outside the simulation core and is not
modelled.  Randomness (`Math.random`) is modelled by passing the drawn
values as explicit parameters.
-/

namespace Hantei

/-- `RectangleCollider` (src lines 15-34): an axis-aligned rectangle.
The `x`/`y` fields come from the `Collider` base class; `width`/`height`
are added by `RectangleCollider`. -/
structure RectangleCollider where
  x : ℚ
  y : ℚ
  width : ℚ
  height : ℚ
deriving DecidableEq, Repr

/-- `RectangleCollider.translate` (src lines 24-26): returns a new
rectangle shifted by `(dx, dy)`, same width and height. -/
def RectangleCollider.translate (r : RectangleCollider) (dx dy : ℚ) : RectangleCollider :=
  ⟨r.x + dx, r.y + dy, r.width, r.height⟩

/-- Getter `top` (src line 30). -/
def RectangleCollider.top (r : RectangleCollider) : ℚ := r.y

/-- Getter `bottom` (src line 31). -/
def RectangleCollider.bottom (r : RectangleCollider) : ℚ := r.y + r.height

/-- Getter `left` (src line 32). -/
def RectangleCollider.left (r : RectangleCollider) : ℚ := r.x

/-- Getter `right` (src line 33). -/
def RectangleCollider.right (r : RectangleCollider) : ℚ := r.x + r.width

/-- The collider hierarchy (src lines 3-34) as a tagged union.  The only
variant the source instantiates is `rectangle` (tag `'rectangle'`); the
`other` variant stands for any future non-rectangle collider, carrying the
base-class fields `_type`, `x`, `y`. -/
inductive Collider where
  | rectangle (box : RectangleCollider)
  | other (tag : String) (x y : ℚ)
deriving DecidableEq, Repr

/-- The `type` getter of the collider base class (src line 10);
`RectangleCollider`'s constructor sets the tag to `'rectangle'`
(src line 17). -/
def Collider.type : Collider → String
  | .rectangle _ => "rectangle"
  | .other tag _ _ => tag

/-- Translation lifted to the union.  The `rectangle` case is
`RectangleCollider.translate` (src lines 24-26).  Modelled from the spec:
for the `other` case (a future non-rectangle variant) the source base
class has no `translate`; spec 4.2 requires `translate` to produce a
same-variant collider with the underlying shape translated. -/
def Collider.translate : Collider → ℚ → ℚ → Collider
  | .rectangle box, dx, dy => .rectangle (box.translate dx dy)
  | .other tag x y, dx, dy => .other tag (x + dx) (y + dy)

/-- `Actor` base-class state (src lines 39-44): a world position and an
optional collider (`option.collider` defaults to `null`, modelled as
`none`). -/
structure Actor where
  x : ℚ
  y : ℚ
  collider : Option Collider
deriving DecidableEq, Repr

/-- The `globalCollider` getter (src lines 67-69): the local collider
translated by the actor's current position, recomputed on demand.  With a
`null` collider the source would throw a `TypeError`; that is modelled by
`none`. -/
def Actor.globalCollider (a : Actor) : Option Collider :=
  a.collider.map fun c => c.translate a.x a.y

/-- `RectangleActor` state (src lines 74-91): position, size, fill color
and velocity.  The constructor draws `_vx`, `_vy` from `Math.random`;
here they are injected (see `RectangleActor.new`).  The `_collider` field
is set once in the constructor to `RectangleCollider(0, 0, width, height)`
and neither it nor `width`/`height` is ever reassigned, so the collider is
recovered as a function of `width`/`height` (see `RectangleActor.collider`). -/
structure RectangleActor where
  x : ℚ
  y : ℚ
  width : ℚ
  height : ℚ
  color : String
  vx : ℚ
  vy : ℚ
deriving DecidableEq, Repr

instance : Inhabited RectangleActor := ⟨⟨0, 0, 0, 0, "rgb(0, 0, 0)", 0, 0⟩⟩

/-- The `RectangleActor` constructor (src lines 75-91) with the two
`Math.random` draws passed in as `vx`, `vy`. -/
def RectangleActor.new (x y width height vx vy : ℚ) : RectangleActor :=
  ⟨x, y, width, height, "rgb(0, 0, 0)", vx, vy⟩

/-- The stored `_collider` of a `RectangleActor`: always
`RectangleCollider(0, 0, width, height)` (src line 78). -/
def RectangleActor.collider (a : RectangleActor) : Collider :=
  .rectangle ⟨0, 0, a.width, a.height⟩

/-- `globalCollider` specialised to `RectangleActor` (src lines 67-69). -/
def RectangleActor.globalCollider (a : RectangleActor) : Collider :=
  a.collider.translate a.x a.y

/-- View of a `RectangleActor` through the `Actor` base-class fields. -/
def RectangleActor.toActor (a : RectangleActor) : Actor :=
  ⟨a.x, a.y, some a.collider⟩

/-- The per-frame `info` object (src lines 165-170), flattened: it carries
exactly the world's width and height. -/
structure WorldInfo where
  width : ℚ
  height : ℚ
deriving DecidableEq, Repr

/-- `RectangleActor.update` (src lines 94-109): reset the color to black,
move by the velocity, then flip each velocity component whose new raw
coordinate left `[0, world dimension]`.  The checks compare the raw `x`/`y`
(not the rectangle's far edge) to the bounds, exactly as the source does. -/
def RectangleActor.update (a : RectangleActor) (info : WorldInfo) : RectangleActor :=
  let x := a.x + a.vx
  let y := a.y + a.vy
  let vx := if x < 0 ∨ x > info.width then -a.vx else a.vx
  let vy := if y < 0 ∨ y > info.height then -a.vy else a.vy
  { a with color := "rgb(0, 0, 0)", x := x, y := y, vx := vx, vy := vy }

/-- `RectangleActor.hit` (src lines 118-120): set the color to red; the
peer is ignored. -/
def RectangleActor.hit (a : RectangleActor) (_other : RectangleActor) : RectangleActor :=
  { a with color := "rgb(255, 0, 0)" }

/-- `CollisionDetector.detectRectangleCollision` (src lines 138-143):
strict-inequality AABB overlap test. -/
def CollisionDetector.detectRectangleCollision (rect1 rect2 : RectangleCollider) : Bool :=
  let horizontal := decide (rect2.left < rect1.right) && decide (rect1.left < rect2.right)
  let vertical := decide (rect2.top < rect1.bottom) && decide (rect1.top < rect2.bottom)
  horizontal && vertical

/-- The dispatch inside `CollisionDetector.detectCollision` (src lines
130-134), on the two global colliders: both tagged `'rectangle'` runs the
rectangle test, anything else falls through to `false`.  (A hypothetical
`other` collider spoofing the tag `'rectangle'` would reach
`detectRectangleCollision` in the source with `undefined` edge getters,
where every `<` comparison is false, so the source also yields `false`;
the constructor match below is observationally the same dispatch.) -/
def CollisionDetector.detectColliders : Collider → Collider → Bool
  | .rectangle r1, .rectangle r2 => CollisionDetector.detectRectangleCollision r1 r2
  | _, _ => false

/-- `CollisionDetector.detectCollision` (src lines 126-135) on base-class
actors: compute both global colliders, then dispatch.  `none` models the
`TypeError` the source would throw on a `null` collider. -/
def CollisionDetector.detectCollision (actor1 actor2 : Actor) : Option Bool :=
  match actor1.globalCollider, actor2.globalCollider with
  | some c1, some c2 => some (CollisionDetector.detectColliders c1 c2)
  | _, _ => none

/-- `CollisionDetector.detectCollision` specialised to the
`RectangleActor`s the world actually holds (their global colliders always
exist). -/
def CollisionDetector.detect (a1 a2 : RectangleActor) : Bool :=
  CollisionDetector.detectColliders a1.globalCollider a2.globalCollider

/-- `World` state (src lines 147-156): fixed bounds and the ordered actor
list.  The owned `CollisionDetector` is stateless and needs no field. -/
structure World where
  width : ℚ
  height : ℚ
  actors : List RectangleActor
deriving Repr

/-- `World.addActor` (src lines 159-161): push onto the actor list. -/
def World.addActor (w : World) (a : RectangleActor) : World :=
  { w with actors := w.actors ++ [a] }

/-- One observable call made during the collision sweep: either an
invocation of `detector.detectCollision` on the actors at indices `i`, `j`
(recording its result), or an invocation `actors[receiver].hit(actors[arg])`. -/
inductive SweepEvent where
  | detectCall (i j : Nat) (result : Bool)
  | hitCall (receiver arg : Nat)
deriving DecidableEq, Repr

/-- The index pairs visited by the nested loops of `World._hitTest`
(src lines 186-187), in loop order: `i` from `0` to `length - 2`, `j`
from `i + 1` to `length - 1`. -/
def pairIndices (n : Nat) : List (Nat × Nat) :=
  (List.range (n - 1)).flatMap fun i =>
    (List.range' (i + 1) (n - 1 - i)).map fun j => (i, j)

/-- The state change of one iteration of `World._hitTest`'s inner loop
(src lines 188-195): fetch both actors, test, and on a hit replace
`actors[i]` by `a1.hit(a2)` and then `actors[j]` by `a2.hit(a1)`. -/
def hitStep (acts : List RectangleActor) (p : Nat × Nat) : List RectangleActor :=
  let a1 := acts.getD p.1 default
  let a2 := acts.getD p.2 default
  if CollisionDetector.detect a1 a2 then
    (acts.set p.1 (a1.hit a2)).set p.2 (a2.hit a1)
  else
    acts

/-- The calls made by one iteration of the inner loop, in order: the
detector call, then on a hit `a1.hit(a2)` followed by `a2.hit(a1)`. -/
def hitEvents (acts : List RectangleActor) (p : Nat × Nat) : List SweepEvent :=
  let r := CollisionDetector.detect (acts.getD p.1 default) (acts.getD p.2 default)
  SweepEvent.detectCall p.1 p.2 r ::
    (if r then [SweepEvent.hitCall p.1 p.2, SweepEvent.hitCall p.2 p.1] else [])

/-- Threading of `World._hitTest` over a list of index pairs: the
resulting actor list together with the trace of calls made. -/
def hitTestFrom : List RectangleActor → List (Nat × Nat) → List RectangleActor × List SweepEvent
  | acts, [] => (acts, [])
  | acts, p :: ps =>
    let rest := hitTestFrom (hitStep acts p) ps
    (rest.1, hitEvents acts p ++ rest.2)

/-- `World._hitTest` (src lines 183-198): the full sweep over all index
pairs `(i, j)` with `i < j`, instrumented with its call trace. -/
def World.hitTest (acts : List RectangleActor) : List RectangleActor × List SweepEvent :=
  hitTestFrom acts (pairIndices acts.length)

/-- `World.update` (src lines 164-179): build the `info` object, update
every actor in sequence order, then run the collision sweep.  The second
component is the sweep's call trace (instrumentation; the source returns
nothing). -/
def World.update (w : World) : World × List SweepEvent :=
  let info : WorldInfo := ⟨w.width, w.height⟩
  let moved := w.actors.map fun a => a.update info
  let swept := World.hitTest moved
  ({ w with actors := swept.1 }, swept.2)

/-- The geometric state of an actor: everything `detectCollision` can
observe about it (position and collider size). -/
def RectangleActor.geom (a : RectangleActor) : ℚ × ℚ × ℚ × ℚ :=
  (a.x, a.y, a.width, a.height)

/-- Whether index `k` receives at least one `hit` call when the pairs `ps`
are swept over the actor list `acts`. -/
def touched (acts : List RectangleActor) (ps : List (Nat × Nat)) (k : Nat) : Bool :=
  ps.any fun p =>
    CollisionDetector.detect (acts.getD p.1 default) (acts.getD p.2 default)
      && (k == p.1 || k == p.2)

/-- The effect of a `hit` call on its receiver, peer forgotten. -/
def redden (a : RectangleActor) : RectangleActor :=
  { a with color := "rgb(255, 0, 0)" }

/-- The intermediate actor list inside `World.update` after the motion
phase (src lines 172-175) and before the collision sweep. -/
def World.movedActors (w : World) : List RectangleActor :=
  w.actors.map fun a => a.update ⟨w.width, w.height⟩

/-- Selects the detector invocations of a sweep trace. -/
def SweepEvent.isDetect : SweepEvent → Bool
  | .detectCall .. => true
  | .hitCall .. => false

/-- A sample actor for concrete instantiations: at (0, 0), 10 by 10, at rest. -/
def sampleA : RectangleActor := ⟨0, 0, 10, 10, "rgb(0, 0, 0)", 0, 0⟩

/-- A sample actor overlapping `sampleA`: at (5, 5), 10 by 10, at rest. -/
def sampleB : RectangleActor := ⟨5, 5, 10, 10, "rgb(0, 0, 0)", 0, 0⟩

/-- `sampleA` with a different color and velocity but the same geometry. -/
def sampleA' : RectangleActor := ⟨0, 0, 10, 10, "rgb(255, 0, 0)", 3, -2⟩

/-- A sample world holding the two overlapping sample actors. -/
def sampleWorld : World := ⟨500, 500, [sampleA, sampleB]⟩

theorem hit_eq_redden (a o : RectangleActor) : a.hit o = redden a := rfl

theorem redden_geom (a : RectangleActor) : (redden a).geom = a.geom := rfl

theorem redden_idem (a : RectangleActor) : redden (redden a) = redden a := rfl

theorem geom_fields {a b : RectangleActor} (h : a.geom = b.geom) :
    a.x = b.x ∧ a.y = b.y ∧ a.width = b.width ∧ a.height = b.height := by
  simpa [RectangleActor.geom, Prod.ext_iff] using h

theorem globalCollider_congr (a b : RectangleActor) (h : a.geom = b.geom) :
    a.globalCollider = b.globalCollider := by
  obtain ⟨hx, hy, hw, hh⟩ := geom_fields h
  simp [RectangleActor.globalCollider, RectangleActor.collider, Collider.translate,
    RectangleCollider.translate, hx, hy, hw, hh]

theorem detect_congr (a1 a2 b1 b2 : RectangleActor)
    (h1 : a1.geom = b1.geom) (h2 : a2.geom = b2.geom) :
    CollisionDetector.detect a1 a2 = CollisionDetector.detect b1 b2 := by
  unfold CollisionDetector.detect
  rw [globalCollider_congr _ _ h1, globalCollider_congr _ _ h2]

theorem getD_set_self (l : List RectangleActor) (i : Nat) (hi : i < l.length)
    (a : RectangleActor) : (l.set i a).getD i default = a := by
  rw [List.getD_eq_getElem?_getD, List.getElem?_set_self hi]
  rfl

theorem getD_set_ne (l : List RectangleActor) (i j : Nat) (h : i ≠ j)
    (a : RectangleActor) : (l.set i a).getD j default = l.getD j default := by
  rw [List.getD_eq_getElem?_getD, List.getElem?_set_ne h, ← List.getD_eq_getElem?_getD]

theorem hitStep_length (acts : List RectangleActor) (p : Nat × Nat) :
    (hitStep acts p).length = acts.length := by
  simp only [hitStep]
  split
  · simp
  · rfl

theorem hitStep_geom (acts : List RectangleActor) (p : Nat × Nat) (k : Nat) :
    ((hitStep acts p).getD k default).geom = (acts.getD k default).geom := by
  simp only [hitStep]
  split
  · rcases eq_or_ne p.2 k with rfl | h2
    · by_cases hlt : p.2 < acts.length
      · rw [getD_set_self _ _ (by simpa using hlt)]
        exact redden_geom _
      · have hs : ((acts.set p.1 ((acts.getD p.1 default).hit (acts.getD p.2 default))).set p.2
            ((acts.getD p.2 default).hit (acts.getD p.1 default))).length ≤ p.2 := by
          simpa using Nat.le_of_not_lt hlt
        rw [List.getD_eq_default _ _ hs, List.getD_eq_default _ _ (Nat.le_of_not_lt hlt)]
    · rw [getD_set_ne _ _ _ h2]
      rcases eq_or_ne p.1 k with rfl | h1
      · by_cases hlt : p.1 < acts.length
        · rw [getD_set_self _ _ hlt]
          exact redden_geom _
        · have hs : (acts.set p.1 ((acts.getD p.1 default).hit (acts.getD p.2 default))).length
              ≤ p.1 := by simpa using Nat.le_of_not_lt hlt
          rw [List.getD_eq_default _ _ hs, List.getD_eq_default _ _ (Nat.le_of_not_lt hlt)]
      · rw [getD_set_ne _ _ _ h1]
  · rfl

theorem hitStep_getD (acts : List RectangleActor) (p : Nat × Nat) (k : Nat)
    (h1 : p.1 < acts.length) (h2 : p.2 < acts.length) :
    (hitStep acts p).getD k default =
      if CollisionDetector.detect (acts.getD p.1 default) (acts.getD p.2 default)
          && (k == p.1 || k == p.2)
        then redden (acts.getD k default) else acts.getD k default := by
  simp only [hitStep]
  by_cases hd : CollisionDetector.detect (acts.getD p.1 default) (acts.getD p.2 default) = true
  · rw [if_pos hd]
    rcases eq_or_ne k p.2 with rfl | hk2
    · rw [getD_set_self _ _ (by simpa using h2), hit_eq_redden, if_pos (by rw [hd]; simp)]
    · rw [getD_set_ne _ _ _ (Ne.symm hk2)]
      rcases eq_or_ne k p.1 with rfl | hk1
      · rw [getD_set_self _ _ h1, hit_eq_redden, if_pos (by rw [hd]; simp)]
      · rw [getD_set_ne _ _ _ (Ne.symm hk1), if_neg (by rw [hd]; simp [hk1, hk2])]
  · have hd' : CollisionDetector.detect (acts.getD p.1 default) (acts.getD p.2 default)
        = false := Bool.eq_false_iff.mpr hd
    rw [if_neg hd, if_neg (by rw [hd']; simp)]

theorem hitTestFrom_length (ps : List (Nat × Nat)) (acts : List RectangleActor) :
    (hitTestFrom acts ps).1.length = acts.length := by
  induction ps generalizing acts with
  | nil => rfl
  | cons p ps ih => rw [hitTestFrom, ih, hitStep_length]

theorem hitTestFrom_geom (ps : List (Nat × Nat)) (acts : List RectangleActor) (k : Nat) :
    ((hitTestFrom acts ps).1.getD k default).geom = (acts.getD k default).geom := by
  induction ps generalizing acts with
  | nil => rfl
  | cons p ps ih => rw [hitTestFrom, ih, hitStep_geom]

theorem hitEvents_congr (acts acts' : List RectangleActor) (p : Nat × Nat)
    (h : ∀ k, (acts'.getD k default).geom = (acts.getD k default).geom) :
    hitEvents acts' p = hitEvents acts p := by
  unfold hitEvents
  rw [detect_congr _ _ _ _ (h p.1) (h p.2)]

theorem hitTestFrom_trace (ps : List (Nat × Nat)) (acts acts' : List RectangleActor)
    (h : ∀ k, (acts'.getD k default).geom = (acts.getD k default).geom) :
    (hitTestFrom acts' ps).2 = ps.flatMap (hitEvents acts) := by
  induction ps generalizing acts' with
  | nil => rfl
  | cons p ps ih =>
    rw [hitTestFrom, List.flatMap_cons, hitEvents_congr acts acts' p h,
      ih (hitStep acts' p) (fun k => (hitStep_geom acts' p k).trans (h k))]

theorem touched_congr (acts acts' : List RectangleActor) (ps : List (Nat × Nat)) (k : Nat)
    (h : ∀ m, (acts'.getD m default).geom = (acts.getD m default).geom) :
    touched acts' ps k = touched acts ps k := by
  unfold touched
  congr 1
  funext p
  rw [detect_congr _ _ _ _ (h p.1) (h p.2)]

theorem hitTestFrom_getD (ps : List (Nat × Nat)) (acts : List RectangleActor)
    (hv : ∀ p ∈ ps, p.1 < acts.length ∧ p.2 < acts.length) (k : Nat) :
    (hitTestFrom acts ps).1.getD k default =
      if touched acts ps k then redden (acts.getD k default) else acts.getD k default := by
  induction ps generalizing acts with
  | nil => simp [hitTestFrom, touched]
  | cons p ps ih =>
    obtain ⟨hp1, hp2⟩ := hv p (List.mem_cons_self p ps)
    have hv' : ∀ q ∈ ps, q.1 < (hitStep acts p).length ∧ q.2 < (hitStep acts p).length := by
      intro q hq
      rw [hitStep_length]
      exact hv q (List.mem_cons_of_mem p hq)
    rw [hitTestFrom, ih (hitStep acts p) hv',
      touched_congr acts (hitStep acts p) ps k (hitStep_geom acts p),
      hitStep_getD acts p k hp1 hp2]
    rw [show touched acts (p :: ps) k =
        ((CollisionDetector.detect (acts.getD p.1 default) (acts.getD p.2 default)
          && (k == p.1 || k == p.2)) || touched acts ps k) from by
      unfold touched; rw [List.any_cons]]
    by_cases hb : (CollisionDetector.detect (acts.getD p.1 default) (acts.getD p.2 default)
        && (k == p.1 || k == p.2)) = true
    · rw [if_pos hb]
      by_cases ht : touched acts ps k = true
      · rw [if_pos ht, if_pos (by rw [hb, ht]; rfl), redden_idem]
      · rw [if_neg ht, if_pos (by rw [hb]; rfl)]
    · have hb' := Bool.eq_false_iff.mpr hb
      rw [if_neg hb]
      by_cases ht : touched acts ps k = true
      · rw [if_pos ht, if_pos (by rw [hb', ht]; rfl)]
      · have ht' := Bool.eq_false_iff.mpr ht
        rw [if_neg ht, if_neg (by rw [hb', ht']; simp)]

theorem pairIndices_mem (n i j : Nat) : (i, j) ∈ pairIndices n ↔ i < j ∧ j < n := by
  unfold pairIndices
  simp only [List.mem_flatMap, List.mem_range, List.mem_map, List.mem_range'_1,
    Prod.mk.injEq]
  constructor
  · rintro ⟨a, ha, b, ⟨hb1, hb2⟩, rfl, rfl⟩
    omega
  · rintro ⟨hij, hjn⟩
    exact ⟨i, by omega, j, ⟨by omega, by omega⟩, rfl, rfl⟩

theorem sum_map_sub_succ (l : List Nat) (m : Nat) (h : ∀ i ∈ l, i ≤ m) :
    (l.map fun i => m + 1 - i).sum = (l.map fun i => m - i).sum + l.length := by
  induction l with
  | nil => rfl
  | cons a l ih =>
    simp only [List.map_cons, List.sum_cons, List.length_cons]
    have ha : a ≤ m := h a (List.mem_cons_self a l)
    have hl := ih fun i hi => h i (List.mem_cons_of_mem a hi)
    omega

theorem two_mul_sum_range_sub (m : Nat) :
    2 * ((List.range m).map fun i => m - i).sum = m * (m + 1) := by
  induction m with
  | zero => rfl
  | succ m ih =>
    rw [List.range_succ, List.map_append, List.sum_append]
    rw [sum_map_sub_succ (List.range m) m fun i hi => Nat.le_of_lt (List.mem_range.mp hi)]
    simp only [List.map_cons, List.map_nil, List.sum_cons, List.sum_nil, List.length_range,
      Nat.add_sub_cancel_left, Nat.sub_self]
    have hexp : 2 * (((List.range m).map fun i => m - i).sum + m + (1 + 0)) =
        2 * ((List.range m).map fun i => m - i).sum + 2 * m + 2 := by ring
    rw [hexp, ih]
    ring

theorem pairIndices_length (n : Nat) : (pairIndices n).length = n * (n - 1) / 2 := by
  have hsum : (pairIndices n).length = ((List.range (n - 1)).map fun i => n - 1 - i).sum := by
    unfold pairIndices
    rw [List.length_flatMap]
    exact congrArg List.sum (congrArg (fun g => List.map g (List.range (n - 1)))
      (funext fun i => by simp [List.length_range']))
  have h := two_mul_sum_range_sub (n - 1)
  have h2 : (n - 1) * ((n - 1) + 1) = n * (n - 1) := by
    cases n with
    | zero => rfl
    | succ k => simp [Nat.succ_sub_one, Nat.mul_comm]
  rw [h2] at h
  rw [hsum]
  omega

theorem update_trace (w : World) :
    (World.update w).2 = (pairIndices w.actors.length).flatMap (hitEvents w.movedActors) := by
  show (World.hitTest w.movedActors).2 = _
  unfold World.hitTest
  rw [show w.movedActors.length = w.actors.length from List.length_map _ _]
  exact hitTestFrom_trace _ _ _ fun k => rfl

theorem update_actors_getD (w : World) (k : Nat) :
    (World.update w).1.actors.getD k default =
      if touched w.movedActors (pairIndices w.actors.length) k
        then redden (w.movedActors.getD k default) else w.movedActors.getD k default := by
  show (World.hitTest w.movedActors).1.getD k default = _
  unfold World.hitTest
  rw [show w.movedActors.length = w.actors.length from List.length_map _ _]
  refine hitTestFrom_getD _ _ (fun p hp => ?_) k
  have hm : (p.1, p.2) ∈ pairIndices w.actors.length := by
    rw [Prod.mk.eta]
    exact hp
  have hb := (pairIndices_mem _ p.1 p.2).mp hm
  rw [World.movedActors, List.length_map]
  omega

theorem movedActors_getD (w : World) (i : Nat) (hi : i < w.actors.length) :
    w.movedActors.getD i default = (w.actors.getD i default).update ⟨w.width, w.height⟩ := by
  have h : w.actors[i]? = some (w.actors.getD i default) := by
    rw [List.getElem?_eq_getElem hi, List.getD_eq_getElem?_getD, List.getElem?_eq_getElem hi]
    rfl
  rw [World.movedActors, List.getD_eq_getElem?_getD, List.getElem?_map, h]
  rfl

theorem touched_iff_hitCall (acts : List RectangleActor) (ps : List (Nat × Nat)) (i : Nat) :
    touched acts ps i = true ↔ ∃ j, SweepEvent.hitCall i j ∈ ps.flatMap (hitEvents acts) := by
  unfold touched
  simp only [List.any_eq_true, List.mem_flatMap, Bool.and_eq_true, Bool.or_eq_true, beq_iff_eq]
  constructor
  · rintro ⟨p, hp, hd, hi | hi⟩
    · refine ⟨p.2, p, hp, ?_⟩
      unfold hitEvents
      rw [hd, hi]
      simp
    · refine ⟨p.1, p, hp, ?_⟩
      unfold hitEvents
      rw [hd, hi]
      simp
  · rintro ⟨j, p, hp, hmem⟩
    unfold hitEvents at hmem
    by_cases hd : CollisionDetector.detect (acts.getD p.1 default) (acts.getD p.2 default) = true
    · rw [hd] at hmem
      simp only [if_true, List.mem_cons, List.mem_singleton, List.not_mem_nil, or_false]
        at hmem
      rcases hmem with hmem | hmem | hmem
      · exact absurd hmem (by simp)
      · obtain ⟨h1, h2⟩ := SweepEvent.hitCall.inj hmem
        exact ⟨p, hp, hd, Or.inl h1⟩
      · obtain ⟨h1, h2⟩ := SweepEvent.hitCall.inj hmem
        exact ⟨p, hp, hd, Or.inr h1⟩
    · have hd' := Bool.eq_false_iff.mpr hd
      rw [hd'] at hmem
      simp at hmem

theorem filter_isDetect_flatMap (acts : List RectangleActor) (ps : List (Nat × Nat)) :
    (ps.flatMap (hitEvents acts)).filter SweepEvent.isDetect = ps.map fun p =>
      SweepEvent.detectCall p.1 p.2
        (CollisionDetector.detect (acts.getD p.1 default) (acts.getD p.2 default)) := by
  induction ps with
  | nil => rfl
  | cons p ps ih =>
    rw [List.flatMap_cons, List.filter_append, ih, List.map_cons]
    unfold hitEvents
    by_cases hd : CollisionDetector.detect (acts.getD p.1 default) (acts.getD p.2 default) = true
    · rw [hd]
      rfl
    · rw [Bool.eq_false_iff.mpr hd]
      rfl

/-- C1: for any two bodies whose global colliders are rectangles `rect1`
and `rect2`, `detectCollision` returns true iff
`rect2.left < rect1.right ∧ rect1.left < rect2.right ∧
rect2.top < rect1.bottom ∧ rect1.top < rect2.bottom` (strict
inequalities), so two 10x10 bodies at (0,0) and (10,0), which share the
edge x = 10, are not reported as colliding. -/
theorem detectCollision_rectangle_overlap_iff :
    (∀ (a1 a2 : Actor) (r1 r2 : RectangleCollider),
      a1.globalCollider = some (Collider.rectangle r1) →
      a2.globalCollider = some (Collider.rectangle r2) →
      (CollisionDetector.detectCollision a1 a2 = some true ↔
        (r2.left < r1.right ∧ r1.left < r2.right ∧
          r2.top < r1.bottom ∧ r1.top < r2.bottom))) ∧
    CollisionDetector.detectCollision ⟨0, 0, some (Collider.rectangle ⟨0, 0, 10, 10⟩)⟩
        ⟨10, 0, some (Collider.rectangle ⟨0, 0, 10, 10⟩)⟩ = some false := by
  constructor
  · intro a1 a2 r1 r2 h1 h2
    have hd : CollisionDetector.detectCollision a1 a2
        = some (CollisionDetector.detectRectangleCollision r1 r2) := by
      unfold CollisionDetector.detectCollision
      rw [h1, h2]
      rfl
    rw [hd]
    simp [CollisionDetector.detectRectangleCollision, and_assoc]
  · norm_num [CollisionDetector.detectCollision, Actor.globalCollider, Collider.translate,
      RectangleCollider.translate, CollisionDetector.detectColliders,
      CollisionDetector.detectRectangleCollision, RectangleCollider.left,
      RectangleCollider.right, RectangleCollider.top, RectangleCollider.bottom]

theorem detectCollision_rectangle_overlap_iff_witness :
    (Actor.mk 0 0 (some (Collider.rectangle ⟨0, 0, 10, 10⟩))).globalCollider
        = some (Collider.rectangle ⟨0, 0, 10, 10⟩) ∧
    (Actor.mk 10 0 (some (Collider.rectangle ⟨0, 0, 10, 10⟩))).globalCollider
        = some (Collider.rectangle ⟨10, 0, 10, 10⟩) ∧
    (CollisionDetector.detectCollision
          (Actor.mk 0 0 (some (Collider.rectangle ⟨0, 0, 10, 10⟩)))
          (Actor.mk 10 0 (some (Collider.rectangle ⟨0, 0, 10, 10⟩))) = some true ↔
      ((⟨10, 0, 10, 10⟩ : RectangleCollider).left
            < (⟨0, 0, 10, 10⟩ : RectangleCollider).right ∧
        (⟨0, 0, 10, 10⟩ : RectangleCollider).left
            < (⟨10, 0, 10, 10⟩ : RectangleCollider).right ∧
        (⟨10, 0, 10, 10⟩ : RectangleCollider).top
            < (⟨0, 0, 10, 10⟩ : RectangleCollider).bottom ∧
        (⟨0, 0, 10, 10⟩ : RectangleCollider).top
            < (⟨10, 0, 10, 10⟩ : RectangleCollider).bottom)) :=
  ⟨by simp [Actor.globalCollider, Collider.translate, RectangleCollider.translate],
    by simp [Actor.globalCollider, Collider.translate, RectangleCollider.translate],
    detectCollision_rectangle_overlap_iff.1 _ _ _ _
      (by simp [Actor.globalCollider, Collider.translate, RectangleCollider.translate])
      (by simp [Actor.globalCollider, Collider.translate, RectangleCollider.translate])⟩

/-- C2: `update` adds the velocity to the position per axis, then negates
an axis's velocity exactly when the new raw coordinate on that axis is
below 0 or above the world dimension (raw `x`/`y`, not the far edge); in
particular a body at x = -1 with vx = -3 in a width-500 world ends one
update with x = -4 and vx = +3. -/
theorem rectangleActor_update_motion_reflection (a : RectangleActor) (info : WorldInfo) :
    ((a.update info).x = a.x + a.vx) ∧
    ((a.update info).y = a.y + a.vy) ∧
    ((a.update info).vx
      = if a.x + a.vx < 0 ∨ a.x + a.vx > info.width then -a.vx else a.vx) ∧
    ((a.update info).vy
      = if a.y + a.vy < 0 ∨ a.y + a.vy > info.height then -a.vy else a.vy) ∧
    ((a.update info).width = a.width ∧ (a.update info).height = a.height) ∧
    (((RectangleActor.new (-1) 0 10 10 (-3) 0).update ⟨500, 500⟩).x = -4 ∧
      ((RectangleActor.new (-1) 0 10 10 (-3) 0).update ⟨500, 500⟩).vx = 3) := by
  refine ⟨rfl, rfl, rfl, rfl, ⟨rfl, rfl⟩, ?_, ?_⟩
  · norm_num [RectangleActor.update, RectangleActor.new]
  · norm_num [RectangleActor.update, RectangleActor.new]

/-- C3: the sweep inside `World.update` emits, for the n bodies, exactly
one detector call per index pair (i, j) with i < j — n(n-1)/2 pairs, never
a self-comparison — and for each pair found overlapping it calls
`actors[i].hit(actors[j])` and then `actors[j].hit(actors[i])`, in that
order, within the same update's trace. -/
theorem world_update_sweep_enumerates_pairs (w : World) :
    ((World.update w).2 = (pairIndices w.actors.length).flatMap (hitEvents w.movedActors)) ∧
    (∀ (acts : List RectangleActor) (p : Nat × Nat), hitEvents acts p =
        SweepEvent.detectCall p.1 p.2
            (CollisionDetector.detect (acts.getD p.1 default) (acts.getD p.2 default)) ::
          (if CollisionDetector.detect (acts.getD p.1 default) (acts.getD p.2 default)
            then [SweepEvent.hitCall p.1 p.2, SweepEvent.hitCall p.2 p.1] else [])) ∧
    ((pairIndices w.actors.length).length
        = w.actors.length * (w.actors.length - 1) / 2) ∧
    (∀ i j : Nat, (i, j) ∈ pairIndices w.actors.length ↔ i < j ∧ j < w.actors.length) :=
  ⟨update_trace w, fun _ _ => rfl, pairIndices_length _, fun i j => pairIndices_mem _ i j⟩

/-- C4: in every `World.update`, all bodies move before any collision
check: the sweep's detector calls are exactly the pair list evaluated on
the fully moved actor list (post-motion global colliders), and the
update's final geometry is the post-motion geometry (the sweep moves
nobody). -/
theorem world_update_detects_post_motion (w : World) :
    ((World.update w).2.filter SweepEvent.isDetect =
      (pairIndices w.actors.length).map fun p =>
        SweepEvent.detectCall p.1 p.2
          (CollisionDetector.detectColliders
            (w.movedActors.getD p.1 default).globalCollider
            (w.movedActors.getD p.2 default).globalCollider)) ∧
    (∀ k, ((World.update w).1.actors.getD k default).geom
        = (w.movedActors.getD k default).geom) ∧
    (w.movedActors = w.actors.map fun a => a.update ⟨w.width, w.height⟩) := by
  refine ⟨?_, fun k => ?_, rfl⟩
  · rw [update_trace, filter_isDetect_flatMap]
    rfl
  · show ((World.hitTest w.movedActors).1.getD k default).geom = _
    unfold World.hitTest
    exact hitTestFrom_geom _ _ k

/-- C5: the collision flag (the color) is a two-state machine: `update`
always resets it to the normal color, `hit` always sets the collided
color, and after a full `World.update` a body shows the collided color
exactly when at least one `hit` call reached it during that frame's
sweep. -/
theorem collision_flag_state_machine (w : World) (i : Nat) (hi : i < w.actors.length) :
    (∀ (a : RectangleActor) (info : WorldInfo), (a.update info).color = "rgb(0, 0, 0)") ∧
    (∀ a o : RectangleActor, (a.hit o).color = "rgb(255, 0, 0)") ∧
    (((World.update w).1.actors.getD i default).color = "rgb(255, 0, 0)" ↔
      ∃ j, SweepEvent.hitCall i j ∈ (World.update w).2) ∧
    (((World.update w).1.actors.getD i default).color = "rgb(0, 0, 0)" ↔
      ¬ ∃ j, SweepEvent.hitCall i j ∈ (World.update w).2) := by
  have hmoved : (w.movedActors.getD i default).color = "rgb(0, 0, 0)" := by
    rw [movedActors_getD w i hi]
    rfl
  have hne : ("rgb(255, 0, 0)" : String) ≠ "rgb(0, 0, 0)" := by decide
  have htr : (∃ j, SweepEvent.hitCall i j ∈ (World.update w).2) ↔
      touched w.movedActors (pairIndices w.actors.length) i = true := by
    rw [update_trace]
    exact (touched_iff_hitCall _ _ _).symm
  refine ⟨fun a info => rfl, fun a o => rfl, ?_, ?_⟩
  · rw [update_actors_getD, htr]
    by_cases ht : touched w.movedActors (pairIndices w.actors.length) i = true
    · rw [if_pos ht]
      exact iff_of_true rfl ht
    · rw [if_neg ht, hmoved]
      exact iff_of_false (fun h => hne h.symm) ht
  · rw [update_actors_getD, htr]
    by_cases ht : touched w.movedActors (pairIndices w.actors.length) i = true
    · rw [if_pos ht]
      exact iff_of_false (fun h => hne h) (not_not_intro ht)
    · rw [if_neg ht, hmoved]
      exact iff_of_true rfl ht

theorem collision_flag_state_machine_witness :
    0 < sampleWorld.actors.length ∧
    ((∀ (a : RectangleActor) (info : WorldInfo), (a.update info).color = "rgb(0, 0, 0)") ∧
      (∀ a o : RectangleActor, (a.hit o).color = "rgb(255, 0, 0)") ∧
      (((World.update sampleWorld).1.actors.getD 0 default).color = "rgb(255, 0, 0)" ↔
        ∃ j, SweepEvent.hitCall 0 j ∈ (World.update sampleWorld).2) ∧
      (((World.update sampleWorld).1.actors.getD 0 default).color = "rgb(0, 0, 0)" ↔
        ¬ ∃ j, SweepEvent.hitCall 0 j ∈ (World.update sampleWorld).2)) :=
  ⟨by decide, collision_flag_state_machine sampleWorld 0 (by decide)⟩

/-- C6: for every body with a collider, the global collider is exactly the
local collider translated by the body's current position, at every point
in its lifecycle (stated for the base-class view and for
`RectangleActor`). -/
theorem globalCollider_translates_local :
    (∀ (a : Actor) (c : Collider), a.collider = some c →
      a.globalCollider = some (c.translate a.x a.y)) ∧
    (∀ a : RectangleActor, a.globalCollider = a.collider.translate a.x a.y) := by
  refine ⟨fun a c h => ?_, fun a => rfl⟩
  unfold Actor.globalCollider
  rw [h]
  rfl

theorem globalCollider_translates_local_witness :
    (Actor.mk 1 2 (some (Collider.rectangle ⟨0, 0, 5, 5⟩))).collider
        = some (Collider.rectangle ⟨0, 0, 5, 5⟩) ∧
    (Actor.mk 1 2 (some (Collider.rectangle ⟨0, 0, 5, 5⟩))).globalCollider
        = some ((Collider.rectangle ⟨0, 0, 5, 5⟩).translate 1 2) :=
  ⟨rfl, globalCollider_translates_local.1 (Actor.mk 1 2 (some (Collider.rectangle ⟨0, 0, 5, 5⟩)))
    (Collider.rectangle ⟨0, 0, 5, 5⟩) rfl⟩

/-- C7: when the two global colliders do not form a (rectangle, rectangle)
kind pair, `detectCollision` returns false (`some false`, no error): an
unimplemented pairing means "no collision". -/
theorem detectCollision_non_rectangle_false (a1 a2 : Actor) (c1 c2 : Collider)
    (h1 : a1.globalCollider = some c1) (h2 : a2.globalCollider = some c2)
    (h : ¬(c1.type = "rectangle" ∧ c2.type = "rectangle")) :
    CollisionDetector.detectCollision a1 a2 = some false := by
  unfold CollisionDetector.detectCollision
  rw [h1, h2]
  cases c1 with
  | rectangle r1 =>
    cases c2 with
    | rectangle r2 => exact absurd ⟨rfl, rfl⟩ h
    | other t x y => rfl
  | other t x y => cases c2 <;> rfl

theorem detectCollision_non_rectangle_false_witness :
    (Actor.mk 0 0 (some (Collider.other "circle" 0 0))).globalCollider
        = some (Collider.other "circle" 0 0) ∧
    ¬((Collider.other "circle" 0 0).type = "rectangle" ∧
      (Collider.rectangle ⟨0, 0, 5, 5⟩).type = "rectangle") ∧
    CollisionDetector.detectCollision (Actor.mk 0 0 (some (Collider.other "circle" 0 0)))
      (Actor.mk 0 0 (some (Collider.rectangle ⟨0, 0, 5, 5⟩))) = some false :=
  ⟨by simp [Actor.globalCollider, Collider.translate],
    by simp [Collider.type],
    detectCollision_non_rectangle_false
      (Actor.mk 0 0 (some (Collider.other "circle" 0 0)))
      (Actor.mk 0 0 (some (Collider.rectangle ⟨0, 0, 5, 5⟩)))
      (Collider.other "circle" 0 0) (Collider.rectangle ⟨0, 0, 5, 5⟩)
      (by simp [Actor.globalCollider, Collider.translate])
      (by simp [Actor.globalCollider, Collider.translate, RectangleCollider.translate])
      (by simp [Collider.type])⟩

/-- C8: `translate` on a rectangle collider yields x+dx, y+dy with the
same width and height; being a pure function of the receiver, it cannot
and does not mutate it. -/
theorem rectangleCollider_translate_fields (box : RectangleCollider) (dx dy : ℚ) :
    (box.translate dx dy).x = box.x + dx ∧ (box.translate dx dy).y = box.y + dy ∧
    (box.translate dx dy).width = box.width ∧ (box.translate dx dy).height = box.height :=
  ⟨rfl, rfl, rfl, rfl⟩

/-- C9: translation composes:
`box.translate(a, b).translate(c, d) = box.translate(a + c, b + d)`. -/
theorem rectangleCollider_translate_comp (box : RectangleCollider) (a b c d : ℚ) :
    (box.translate a b).translate c d = box.translate (a + c) (b + d) := by
  unfold RectangleCollider.translate
  simp [add_assoc]

/-- C10: `detectCollision` is a pure predicate of the two bodies'
positions and collider geometry: actors agreeing on x, y, width, height
(hence on their colliders) yield the same result, whatever their colors
and velocities; in this embedding it is a function into `Bool`, so it
alters neither body. -/
theorem detectCollision_pure_predicate (a1 a2 b1 b2 : RectangleActor)
    (hx1 : a1.x = b1.x) (hy1 : a1.y = b1.y)
    (hw1 : a1.width = b1.width) (hh1 : a1.height = b1.height)
    (hx2 : a2.x = b2.x) (hy2 : a2.y = b2.y)
    (hw2 : a2.width = b2.width) (hh2 : a2.height = b2.height) :
    CollisionDetector.detect a1 a2 = CollisionDetector.detect b1 b2 :=
  detect_congr a1 a2 b1 b2 (by simp [RectangleActor.geom, hx1, hy1, hw1, hh1])
    (by simp [RectangleActor.geom, hx2, hy2, hw2, hh2])

theorem detectCollision_pure_predicate_witness :
    sampleA.x = sampleA'.x ∧ sampleA.color ≠ sampleA'.color ∧ sampleA.vx ≠ sampleA'.vx ∧
    CollisionDetector.detect sampleA sampleB = CollisionDetector.detect sampleA' sampleB :=
  ⟨rfl, by decide, by norm_num [sampleA, sampleA'],
    detectCollision_pure_predicate sampleA sampleB sampleA' sampleB
      rfl rfl rfl rfl rfl rfl rfl rfl⟩

end Hantei
